import Mathlib

/-!
Verification development for the vectordb-hr-data repository.

The Python sources are shallowly embedded as Lean definitions:

* `recommender/talent_recommender.py` (`recommend_talent_from_db`) —
  `recommend_talent_from_db` below, built from the per-stage functions
  `candidatesOf`, `applyDeptFilter`, `applyKeywordStage`, `applyLangFilter`
  and `finalizeCandidates`.  The ChromaDB collection is embedded as the
  query capability the function actually consumes: a function from an
  optional where-filter and a result count to either a hit list or an
  error (a raised exception).  The embedded function additionally
  returns the trace of issued store queries.
* `recommender/vector_db.py` (`setup_chromadb_collection`) —
  `setup_chromadb_collection` below over an association-list client
  state; batch embed/upsert failures are an oracle `fails : Nat → Bool`.
* `recommender/embedding_utils.py` — `prepare_text_for_employee_embedding`
  and `prepare_text_for_job_embedding` over records with optional fields.

Machine strings are Lean `String`s; the character-level helpers
(`lowerStr`, `subOf`, `tokensOf`, `stripStr`) model Python's
`str.lower`, the `in` substring test, `str.split()` and `str.strip()`.
Distances are exact rationals.
-/

/-- Python `str.lower()` (character-wise lowercasing). -/
def lowerStr (s : String) : String := String.mk (s.data.map Char.toLower)

/-- True when the first list is an initial segment of the second. -/
def leadsWith : List Char → List Char → Bool
  | [], _ => true
  | _ :: _, [] => false
  | a :: as, b :: bs => a == b && leadsWith as bs

/-- True when `needle` occurs contiguously inside `hay`. -/
def hasSubList (needle : List Char) : List Char → Bool
  | [] => needle.isEmpty
  | b :: bs => leadsWith needle (b :: bs) || hasSubList needle bs

/-- Python `needle in hay` on strings (substring containment). -/
def subOf (needle hay : String) : Bool := hasSubList needle.data hay.data

/-- Whitespace splitter used to model Python `str.split()`:
drops empty fragments, so consecutive separators produce no token. -/
def wsSplit (l : List Char) : List (List Char) :=
  match l with
  | [] => []
  | c :: cs =>
    match wsSplit cs with
    | [] => if c.isWhitespace then [] else [[c]]
    | t :: ts =>
      if c.isWhitespace then
        match t with
        | [] => t :: ts
        | _ :: _ => [] :: t :: ts
      else (c :: t) :: ts

/-- Python `s.split()` : whitespace-separated tokens, empties dropped. -/
def tokensOf (s : String) : List String :=
  ((wsSplit s.data).filter (fun t => !t.isEmpty)).map String.mk

/-- Python `str.strip()` (trim leading and trailing whitespace). -/
def stripStr (s : String) : String :=
  String.mk ((((s.data.dropWhile Char.isWhitespace).reverse).dropWhile Char.isWhitespace).reverse)

/-- Join a list of strings with a separator (Python `sep.join(xs)`). -/
def joinSep (sep : String) : List String → String
  | [] => ""
  | [x] => x
  | x :: y :: rest => x ++ sep ++ joinSep sep (y :: rest)

/-- Truthiness of an optional Python string (`None` and `""` are falsy). -/
def optTruthy : Option String → Bool
  | some s => !(s == "")
  | none => false

/-- Metadata stored with an indexed item: a string-keyed flat map,
embedded as an association list (ChromaDB metadata dictionary). -/
abbrev Metadata := List (String × String)

/-- Python `metadata.get(key)` on the flat metadata map. -/
def lookupMeta (m : Metadata) (k : String) : Option String :=
  (m.find? (fun p => p.fst == k)).map (fun p => p.snd)

/-- One hit of a ChromaDB similarity query: parallel entries of
`ids[0]`, `metadatas[0]` and `distances[0]` in the query result. -/
structure Hit where
  id : String
  metadata : Metadata
  distance : Rat
deriving DecidableEq, Repr

/-- The candidate dictionary built in `recommend_talent_from_db`
(talent_recommender.py lines 70-94).  Keys that the code only creates
for one variant are `Option`-valued (`none` models an absent key). -/
structure Candidate where
  id : String
  doc_type : String
  distance : Rat
  reasoning : List String
  name_or_title : Option String
  department : String
  profile_or_description : Option String
  skills_info : Option String
  position : Option String
  projects : Option String
  languages : Option String
  location : Option String
  employment_type : Option String
  experience_years : Option String
  responsibilities : Option String
deriving DecidableEq, Repr

/-- `metadata.get('doc_type', 'unknown')` (talent_recommender.py line 64). -/
def docTypeOfMeta (m : Metadata) : String :=
  (lookupMeta m ("doc_type")).getD ("unknown")

/-- Build the candidate dictionary from one hit
(talent_recommender.py lines 70-92). -/
def buildCandidate (h : Hit) : Candidate :=
  let m := h.metadata
  let dt := docTypeOfMeta m
  { id := h.id
    doc_type := dt
    distance := h.distance
    reasoning := []
    name_or_title :=
      if dt == "employee" then lookupMeta m ("name")
      else some ((lookupMeta m ("title")).getD ("N/A"))
    department := (lookupMeta m ("department")).getD ("N/A")
    profile_or_description :=
      if dt == "employee" then lookupMeta m ("profile_summary")
      else some ((lookupMeta m ("description")).getD ("N/A"))
    skills_info :=
      if dt == "employee" then lookupMeta m ("skills")
      else some ((lookupMeta m ("required_skills")).getD ("N/A"))
    position := if dt == "employee" then some ((lookupMeta m ("position")).getD ("N/A")) else none
    projects := if dt == "employee" then some ((lookupMeta m ("projects")).getD ("")) else none
    languages := if dt == "employee" then some ((lookupMeta m ("languages")).getD ("")) else none
    location := if dt == "job" then some ((lookupMeta m ("location")).getD ("N/A")) else none
    employment_type := if dt == "job" then some ((lookupMeta m ("employment_type")).getD ("N/A")) else none
    experience_years := if dt == "job" then some ((lookupMeta m ("experience_years")).getD ("N/A")) else none
    responsibilities := if dt == "job" then some ((lookupMeta m ("responsibilities")).getD ("")) else none }

/-- The post-hoc doc-type skip test of talent_recommender.py line 67:
a hit is dropped when `target_doc_type` is truthy, differs from the
hit's doc type, and the `where_filter` dictionary is empty. -/
def skipHit (target : Option String) (whereF : Option String) (dt : String) : Bool :=
  (match target with
   | some t => !(t == "") && !(t == dt)
   | none => false) && whereF.isNone

/-- The candidate-construction loop (talent_recommender.py lines 61-94). -/
def candidatesOf (target : Option String) (whereF : Option String) (hits : List Hit) : List Candidate :=
  hits.filterMap (fun h =>
    if skipHit target whereF (docTypeOfMeta h.metadata) then none
    else some (buildCandidate h))

/-- Department filter stage (talent_recommender.py lines 98-105):
active only for a truthy filter, keeps case-insensitive department
matches and appends a department-match reason to each survivor. -/
def applyDeptFilter (df : Option String) (cs : List Candidate) : List Candidate :=
  match df with
  | none => cs
  | some d =>
    if d == "" then cs
    else cs.filterMap (fun c =>
      if lowerStr c.department == lowerStr d then
        some { c with reasoning := c.reasoning ++ ["부서 일치: " ++ c.department] }
      else none)

/-- Query-keyword list (talent_recommender.py line 108): whitespace
tokens longer than two characters, lower-cased. -/
def keywordsOf (desc : String) : List String :=
  ((tokensOf desc).filter (fun kw => 2 < (stripStr kw).length)).map (fun kw => lowerStr (stripStr kw))

/-- Variant-appropriate searched text of the keyword stage
(talent_recommender.py lines 111-115). -/
def keywordTextOf (c : Candidate) : String :=
  if c.doc_type == "employee" then lowerStr (c.projects.getD (""))
  else if c.doc_type == "job" then
    lowerStr ((c.responsibilities.getD ("")) ++ " " ++ (c.profile_or_description.getD ("")))
  else ""

/-- Keyword annotation stage (talent_recommender.py lines 108-119):
never removes candidates, appends a match-count reason when at least
one keyword occurs in the variant-appropriate text. -/
def applyKeywordStage (desc : String) (cs : List Candidate) : List Candidate :=
  let kws := keywordsOf desc
  if kws.isEmpty then cs
  else cs.map (fun c =>
    let cnt := (kws.filter (fun kw => subOf kw (keywordTextOf c))).length
    if 0 < cnt then
      { c with reasoning := c.reasoning ++ ["프로젝트/업무 관련 키워드 " ++ toString cnt ++ "개 매칭"] }
    else c)

/-- The inner loop over `required_languages`
(talent_recommender.py lines 129-137): returns whether every required
language was met, together with the display list accumulated before
the first failure (the whole list when all are met). -/
def checkLangs (candLangsLower : String) : List String → Bool × List String
  | [] => (true, [])
  | r :: rs =>
    if subOf (lowerStr r) candLangsLower then
      let rec_result := checkLangs candLangsLower rs
      (rec_result.fst, r :: rec_result.snd)
    else (false, [])

/-- Language filter stage (talent_recommender.py lines 122-145):
active only for a truthy (non-empty) language list; employees must
satisfy every required language, other candidates pass unfiltered. -/
def applyLangFilter (req : Option (List String)) (cs : List Candidate) : List Candidate :=
  match req with
  | none => cs
  | some l =>
    if l.isEmpty then cs
    else cs.flatMap (fun c =>
      if c.doc_type == "employee" then
        let r := checkLangs (lowerStr (c.languages.getD (""))) l
        if r.fst then
          [{ c with reasoning := c.reasoning ++ ["요구 언어 충족: " ++ joinSep (", ") r.snd] }]
        else []
      else [c])

/-- The two-key comparison of the final sort (talent_recommender.py
line 148): descending reasoning count first, ascending distance second. -/
def candLeP (a b : Candidate) : Prop :=
  b.reasoning.length < a.reasoning.length ∨
    (a.reasoning.length = b.reasoning.length ∧ a.distance ≤ b.distance)

instance : DecidableRel candLeP := fun a b => by unfold candLeP; infer_instance

/-- The final sort of the candidate list; Python's stable `list.sort`
with key `(-len(reasoning), distance)` is embedded as a stable
insertion sort by the same total preorder. -/
def sortCandidates (cs : List Candidate) : List Candidate :=
  List.insertionSort candLeP cs

/-- Sort then truncate (talent_recommender.py lines 148-150). -/
def finalizeCandidates (cs : List Candidate) (num_results : Nat) : List Candidate :=
  (sortCandidates cs).take num_results

/-- `initial_query_count` (talent_recommender.py line 28):
`num_results * 5 if num_results * 5 > 10 else 20`. -/
def initial_query_count (num_results : Nat) : Nat :=
  if 10 < num_results * 5 then num_results * 5 else 20

/-- The where-filter dictionary (talent_recommender.py lines 31-34),
embedded as the optional required `doc_type` value; `none` is the
empty dictionary. -/
def whereOf : Option String → Option String
  | some t => if t == "employee" || t == "job" then some t else none
  | none => none

/-- A ChromaDB collection as consumed by the recommender: its query
method, taking the optional where-filter and `n_results` and returning
either the hit list or a raised error. -/
abbrev QueryFn := Option String → Nat → Except String (List Hit)

/-- Process a successful query result (talent_recommender.py lines
57-150): empty-hit early return, candidate construction with the
post-hoc doc-type check, then the filter stages, sort and truncate. -/
def processHits (whereF target : Option String) (desc : String) (num_results : Nat)
    (df : Option String) (req : Option (List String)) (hits : List Hit) : List Candidate :=
  if hits.isEmpty then []
  else finalizeCandidates
    (applyLangFilter req (applyKeywordStage desc (applyDeptFilter df (candidatesOf target whereF hits))))
    num_results

/-- `recommend_talent_from_db` (talent_recommender.py lines 12-150).
Returns the result (or the uncaught exception of a failed unfiltered
retry) together with the trace of queries issued to the store, each as
the pair of the where-filter and the requested candidate count. -/
def recommend_talent_from_db (query : QueryFn) (project_description : String)
    (num_results : Nat) (department_filter : Option String)
    (required_languages : Option (List String)) (target_doc_type : Option String) :
    Except String (List Candidate) × List (Option String × Nat) :=
  let n := initial_query_count num_results
  let whereF := whereOf target_doc_type
  match query whereF n with
  | Except.ok hits =>
    (Except.ok (processHits whereF target_doc_type project_description num_results
        department_filter required_languages hits), [(whereF, n)])
  | Except.error _ =>
    match whereF with
    | some _ =>
      match query none n with
      | Except.ok hits =>
        (Except.ok (processHits whereF target_doc_type project_description num_results
            department_filter required_languages hits), [(whereF, n), (none, n)])
      | Except.error e2 => (Except.error e2, [(whereF, n), (none, n)])
    | none => (Except.ok [], [(whereF, n)])

/-- An item stored in a ChromaDB collection: its ID, source document
text and flattened metadata (the embedding vector itself is opaque to
every verified property and is omitted). -/
structure Entry where
  id : String
  document : String
  metadata : Metadata
deriving DecidableEq, Repr

/-- The ChromaDB client state: named collections, each a list of
stored entries. -/
abbrev Client := List (String × List Entry)

/-- `client.get_collection(name)` — `none` models the raised error
when the collection does not exist. -/
def getColl (client : Client) (name : String) : Option (List Entry) :=
  ((client.find? (fun p => p.fst == name)).map (fun p => p.snd))

/-- Store a collection under a name, replacing an existing one. -/
def setColl (client : Client) (name : String) (es : List Entry) : Client :=
  if (client.find? (fun p => p.fst == name)).isSome then
    client.map (fun p => if p.fst == name then (name, es) else p)
  else client ++ [(name, es)]

/-- `client.delete_collection(name)`. -/
def delColl (client : Client) (name : String) : Client :=
  client.filter (fun p => !(p.fst == name))

/-- `collection.upsert` of one item: replace the entry with the same
ID, or append when the ID is new. -/
def upsertEntry (es : List Entry) (e : Entry) : List Entry :=
  if es.any (fun x => x.id == e.id) then
    es.map (fun x => if x.id == e.id then e else x)
  else es ++ [e]

/-- One batched `collection.upsert` call over its items. -/
def upsertBatch (es : List Entry) (batch : List Entry) : List Entry :=
  batch.foldl upsertEntry es

/-- Model of the opaque ANN store's `collection.query`: keep the
entries matching the optional `doc_type` predicate, rank them by the
store's distance assignment, and return the closest `n`. -/
def collQuery (es : List Entry) (distOf : String → Rat) (w : Option String) (n : Nat) :
    Except String (List Hit) :=
  Except.ok
    ((List.insertionSort (fun a b : Hit => a.distance ≤ b.distance)
        ((es.filter (fun e =>
            match w with
            | none => true
            | some t => lookupMeta e.metadata ("doc_type") == some t)).map
          (fun e => Hit.mk e.id e.metadata (distOf e.id)))).take n)

/-- Education sub-dictionary of an employee record. -/
structure EduRec where
  degree : Option String
  school : Option String
  graduation_year : Option String
deriving DecidableEq, Repr

/-- A raw employee record; `none` models a key absent from the
dictionary. -/
structure EmployeeRec where
  id : Option String
  name : Option String
  position : Option String
  department : Option String
  profile_summary : Option String
  skills : Option (List String)
  projects : Option (List String)
  languages : Option (List String)
  education : Option EduRec
deriving DecidableEq, Repr

/-- A raw job-posting record; `none` models a key absent from the
dictionary. -/
structure JobRec where
  id : Option String
  title : Option String
  department : Option String
  location : Option String
  employment_type : Option String
  experience_years : Option String
  education : Option String
  description : Option String
  required_skills : Option (List String)
  preferred_skills : Option (List String)
  responsibilities : Option (List String)
deriving DecidableEq, Repr

/-- `prepare_text_for_employee_embedding` (embedding_utils.py lines
31-52), including the `.strip()` of the final text. -/
def prepare_text_for_employee_embedding (employee : EmployeeRec) : String :=
  let education_info := employee.education.getD (EduRec.mk none none none)
  let skills_str := joinSep (", ") (employee.skills.getD [])
  let projects_str := joinSep (". ") (employee.projects.getD [])
  let languages_str := joinSep (", ") (employee.languages.getD [])
  let education_details :=
    (education_info.degree.getD ("")) ++ " " ++ (education_info.school.getD ("")) ++
      " (" ++ (education_info.graduation_year.getD ("N/A")) ++ ")"
  stripStr
    ("직원 유형. 프로필: " ++ (employee.profile_summary.getD ("")) ++ ". " ++
     "직무: " ++ (employee.position.getD ("")) ++ ". " ++
     "부서: " ++ (employee.department.getD ("")) ++ ". " ++
     "보유 기술: " ++ skills_str ++ ". " ++
     "수행 프로젝트: " ++ projects_str ++ ". " ++
     "학력: " ++ education_details ++ ". " ++
     "사용 언어: " ++ languages_str ++ ".")

/-- `prepare_text_for_job_embedding` (embedding_utils.py lines 54-76). -/
def prepare_text_for_job_embedding (job : JobRec) : String :=
  let req_skills_str := joinSep (", ") (job.required_skills.getD [])
  let pref_skills_str := joinSep (", ") (job.preferred_skills.getD [])
  let responsibilities_str := joinSep (". ") (job.responsibilities.getD [])
  stripStr
    ("채용 공고 유형. 공고명: " ++ (job.title.getD ("")) ++ ". " ++
     "부서: " ++ (job.department.getD ("")) ++ ". " ++
     "근무지: " ++ (job.location.getD ("")) ++ ". " ++
     "고용 형태: " ++ (job.employment_type.getD ("")) ++ ". " ++
     "필수 기술: " ++ req_skills_str ++ ". " ++
     "우대 기술: " ++ pref_skills_str ++ ". " ++
     "경력: " ++ (job.experience_years.getD ("")) ++ ". " ++
     "학력 조건: " ++ (job.education.getD ("")) ++ ". " ++
     "주요 업무: " ++ responsibilities_str ++ ". " ++
     "상세 설명: " ++ (job.description.getD ("")) ++ ".")

/-- An employee record after every field has been resolved to a plain
string (lists already joined, education flattened). -/
structure EmployeeFilled where
  profile : String
  position : String
  department : String
  skills_str : String
  projects_str : String
  eduDegree : String
  eduSchool : String
  eduYear : String
  languages_str : String
deriving DecidableEq, Repr

/-- Text construction over fully-resolved employee fields, in the
field order of `prepare_text_for_employee_embedding`. -/
def buildEmployeeText (f : EmployeeFilled) : String :=
  stripStr
    ("직원 유형. 프로필: " ++ f.profile ++ ". " ++
     "직무: " ++ f.position ++ ". " ++
     "부서: " ++ f.department ++ ". " ++
     "보유 기술: " ++ f.skills_str ++ ". " ++
     "수행 프로젝트: " ++ f.projects_str ++ ". " ++
     "학력: " ++ (f.eduDegree ++ " " ++ f.eduSchool ++ " (" ++ f.eduYear ++ ")") ++ ". " ++
     "사용 언어: " ++ f.languages_str ++ ".")

/-- Modelled from the spec: resolve every missing employee field to
the empty string ("Missing fields render as empty string, never
null"), joining present lists and flattening education. -/
def fillEmployeeSpec (e : EmployeeRec) : EmployeeFilled :=
  let edu := e.education.getD (EduRec.mk none none none)
  { profile := e.profile_summary.getD ("")
    position := e.position.getD ("")
    department := e.department.getD ("")
    skills_str := joinSep (", ") (e.skills.getD [])
    projects_str := joinSep (". ") (e.projects.getD [])
    eduDegree := edu.degree.getD ("")
    eduSchool := edu.school.getD ("")
    eduYear := edu.graduation_year.getD ("")
    languages_str := joinSep (", ") (e.languages.getD []) }

/-- Field resolution as the code actually performs it: every missing
field becomes the empty string except the graduation year, whose
default is the literal string N/A (embedding_utils.py line 43). -/
def fillEmployeeCode (e : EmployeeRec) : EmployeeFilled :=
  { fillEmployeeSpec e with
    eduYear := ((e.education.getD (EduRec.mk none none none)).graduation_year).getD ("N/A") }

/-- A job record after every field has been resolved to a plain string. -/
structure JobFilled where
  title : String
  department : String
  location : String
  employment_type : String
  req_skills_str : String
  pref_skills_str : String
  experience_years : String
  education : String
  responsibilities_str : String
  description : String
deriving DecidableEq, Repr

/-- Text construction over fully-resolved job fields, in the field
order of `prepare_text_for_job_embedding`. -/
def buildJobText (f : JobFilled) : String :=
  stripStr
    ("채용 공고 유형. 공고명: " ++ f.title ++ ". " ++
     "부서: " ++ f.department ++ ". " ++
     "근무지: " ++ f.location ++ ". " ++
     "고용 형태: " ++ f.employment_type ++ ". " ++
     "필수 기술: " ++ f.req_skills_str ++ ". " ++
     "우대 기술: " ++ f.pref_skills_str ++ ". " ++
     "경력: " ++ f.experience_years ++ ". " ++
     "학력 조건: " ++ f.education ++ ". " ++
     "주요 업무: " ++ f.responsibilities_str ++ ". " ++
     "상세 설명: " ++ f.description ++ ".")

/-- Modelled from the spec: resolve every missing job field to the
empty string, joining present lists. -/
def fillJobSpec (j : JobRec) : JobFilled :=
  { title := j.title.getD ("")
    department := j.department.getD ("")
    location := j.location.getD ("")
    employment_type := j.employment_type.getD ("")
    req_skills_str := joinSep (", ") (j.required_skills.getD [])
    pref_skills_str := joinSep (", ") (j.preferred_skills.getD [])
    experience_years := j.experience_years.getD ("")
    education := j.education.getD ("")
    responsibilities_str := joinSep (". ") (j.responsibilities.getD [])
    description := j.description.getD ("") }

/-- Metadata entry for an optional scalar field: a key absent from
the record dictionary produces no metadata key. -/
def optEntry (k : String) (v : Option String) : Metadata :=
  match v with
  | some s => [(k, s)]
  | none => []

/-- Metadata entry for an optional list field: present lists are
joined with a comma (an empty list becomes the empty string,
vector_db.py line 37). -/
def optJoin (k : String) (v : Option (List String)) : Metadata :=
  match v with
  | some l => [(k, joinSep (", ") l)]
  | none => []

/-- `_process_metadata_for_db` for an employee record (vector_db.py
lines 29-42): scalars pass through, lists are joined, the education
dictionary is flattened into prefixed keys. -/
def employeeMetadata (e : EmployeeRec) : Metadata :=
  optEntry ("id") e.id ++ optEntry ("name") e.name ++ optEntry ("position") e.position ++
    optEntry ("department") e.department ++ optEntry ("profile_summary") e.profile_summary ++
    optJoin ("skills") e.skills ++ optJoin ("projects") e.projects ++
    optJoin ("languages") e.languages ++
    (match e.education with
     | none => []
     | some ed =>
       optEntry ("education_degree") ed.degree ++ optEntry ("education_school") ed.school ++
         optEntry ("education_graduation_year") ed.graduation_year)

/-- `_process_metadata_for_db` for a job record. -/
def jobMetadata (j : JobRec) : Metadata :=
  optEntry ("id") j.id ++ optEntry ("title") j.title ++ optEntry ("department") j.department ++
    optEntry ("location") j.location ++ optEntry ("employment_type") j.employment_type ++
    optEntry ("experience_years") j.experience_years ++ optEntry ("education") j.education ++
    optEntry ("description") j.description ++ optJoin ("required_skills") j.required_skills ++
    optJoin ("preferred_skills") j.preferred_skills ++ optJoin ("responsibilities") j.responsibilities

/-- One element of `all_data_for_embedding` (vector_db.py lines 56-60):
a record tagged with its variant. -/
inductive TaggedRec where
  | emp (e : EmployeeRec)
  | job (j : JobRec)
deriving DecidableEq, Repr

/-- The record's ID key, when present. -/
def taggedId : TaggedRec → Option String
  | TaggedRec.emp e => e.id
  | TaggedRec.job j => j.id

/-- The embedding text prepared for the record (vector_db.py lines 123-127). -/
def taggedText : TaggedRec → String
  | TaggedRec.emp e => prepare_text_for_employee_embedding e
  | TaggedRec.job j => prepare_text_for_job_embedding j

/-- The processed metadata with the `doc_type` discriminator appended
(vector_db.py lines 135-136). -/
def taggedMeta : TaggedRec → Metadata
  | TaggedRec.emp e => employeeMetadata e ++ [("doc_type", "employee")]
  | TaggedRec.job j => jobMetadata j ++ [("doc_type", "job")]

/-- One valid item headed for the store: ID, document text, metadata
(the parallel lists `all_ids`, `all_documents`, `all_metadatas_to_db`). -/
abbrev SyncItem := String × String × Metadata

/-- The validation loop of vector_db.py lines 115-138: records without
an ID or with an empty embedding text are skipped. -/
def validItems (allData : List TaggedRec) : List SyncItem :=
  allData.filterMap (fun t =>
    match taggedId t with
    | none => none
    | some i =>
      let txt := taggedText t
      if txt == "" then none else some (i, txt, taggedMeta t))

/-- The slice handed to batch `i` (vector_db.py lines 150-155):
`start_idx = i * B`, `end_idx = min((i + 1) * B, total)`. -/
def batchSlice (items : List SyncItem) (B i : Nat) : List SyncItem :=
  (items.drop (i * B)).take (min ((i + 1) * B) items.length - i * B)

/-- `math.ceil(total_items / CHROMA_UPSERT_BATCH_SIZE)`
(vector_db.py line 146), as Nat ceiling division. -/
def numBatches (total B : Nat) : Nat := (total + B - 1) / B

/-- Convert a valid item into a stored entry. -/
def mkEntry (x : SyncItem) : Entry := Entry.mk x.1 x.2.1 x.2.2

/-- The diagnostic logged on a batch failure (vector_db.py line 175):
the first ID of the failing batch, or N/A for an empty batch. -/
def firstIdOfBatch (b : List SyncItem) : String :=
  match b.head? with
  | some x => x.1
  | none => "N/A"

/-- The batch loop of vector_db.py lines 149-177 over the listed batch
indices.  A failing batch (the `fails` oracle models an exception from
`encode` or `upsert`) leaves the collection unchanged and logs the
batch's first ID; a non-failing non-empty batch is upserted. -/
def runLoop (items : List SyncItem) (B : Nat) (fails : Nat → Bool) :
    List Nat → List Entry × List String → List Entry × List String
  | [], acc => acc
  | i :: rest, acc =>
    let batch := batchSlice items B i
    if fails i then runLoop items B fails rest (acc.1, acc.2 ++ [firstIdOfBatch batch])
    else if batch.isEmpty then runLoop items B fails rest acc
    else runLoop items B fails rest (upsertBatch acc.1 (batch.map mkEntry), acc.2)

/-- The whole batched upsert of a rebuild: run every batch index in
order, starting from the current collection contents and an empty log. -/
def runBatches (coll : List Entry) (items : List SyncItem) (B : Nat) (fails : Nat → Bool) :
    List Entry × List String :=
  runLoop items B fails (List.range (numBatches items.length B)) (coll, [])

/-- The rebuild tail of `setup_chromadb_collection` (vector_db.py
lines 109-180): validate records, return the collection untouched when
no valid document remains, otherwise batch-upsert into it. -/
def rebuildInto (client : Client) (name : String) (allData : List TaggedRec) (B : Nat)
    (fails : Nat → Bool) : Client × Option (List Entry) × List String :=
  let cur := (getColl client name).getD []
  let items := validItems allData
  if items.isEmpty then (client, some cur, [])
  else
    let r := runBatches cur items B fails
    (setColl client name r.1, some r.1, r.2)

/-- Cardinality of `current_doc_ids_from_files` (vector_db.py lines
75-79): the number of distinct IDs over both record lists. -/
def idCardOf (emps : List EmployeeRec) (jobs : List JobRec) : Nat :=
  ((emps.filterMap (fun e => e.id)) ++ (jobs.filterMap (fun j => j.id))).dedup.length

/-- `setup_chromadb_collection` (vector_db.py lines 44-180) over the
association-list client state.  Returns the final client state, the
returned collection's contents (`none` models the `return None` of the
empty-data error branch, which the model never takes because
`get_or_create` cannot fail), and the batch-failure log. -/
def setup_chromadb_collection (client : Client) (name : String) (emps : List EmployeeRec)
    (jobs : List JobRec) (B : Nat) (fails : Nat → Bool) :
    Client × Option (List Entry) × List String :=
  let allData := emps.map TaggedRec.emp ++ jobs.map TaggedRec.job
  if allData.isEmpty then
    match getColl client name with
    | some coll => (client, some coll, [])
    | none => (setColl client name [], some [], [])
  else
    match getColl client name with
    | some coll =>
      if coll.length ≠ idCardOf emps jobs then
        rebuildInto (setColl (delColl client name) name []) name allData B fails
      else if 0 < coll.length then (client, some coll, [])
      else rebuildInto client name allData B fails
    | none => rebuildInto (setColl client name []) name allData B fails

/-- Modelled from the spec: the candidate-pool size the Retriever
section promises, `max(k * 5, 20)`. -/
def spec_query_count (k : Nat) : Nat := max (k * 5) 20

/-- Modelled from the spec: the Language-filter stage as §4.4 words
it — an employee candidate survives exactly when every required
language, lower-cased, is a substring of its lower-cased flattened
language field, surviving employees gain a reason listing the
requested languages verbatim, all other candidates pass through. -/
def langFilterSpec (l : List String) (cs : List Candidate) : List Candidate :=
  cs.flatMap (fun c =>
    if c.doc_type == "employee" then
      if l.all (fun r => subOf (lowerStr r) (lowerStr (c.languages.getD ("")))) then
        [{ c with reasoning := c.reasoning ++ ["요구 언어 충족: " ++ joinSep (", ") l] }]
      else []
    else [c])

/-- A store whose native where-filter predicate always raises, and
whose unfiltered query returns a single job-tagged hit — the concrete
failing input for the fallback-filter property. -/
def c1Store : QueryFn := fun w _ =>
  match w with
  | some _ => Except.error ("where filter unsupported")
  | none => Except.ok [Hit.mk ("J1") [("doc_type", "job"), ("title", "백엔드 개발자"), ("department", "개발팀"), ("description", "API 개발")] 0]

/-- The candidate that `recommend_talent_from_db` returns on `c1Store`
with `target_doc_type='employee'`. -/
def c1Candidate : Candidate :=
  { id := "J1"
    doc_type := "job"
    distance := 0
    reasoning := []
    name_or_title := some "백엔드 개발자"
    department := "개발팀"
    profile_or_description := some "API 개발"
    skills_info := some "N/A"
    position := none
    projects := none
    languages := none
    location := some "N/A"
    employment_type := some "N/A"
    experience_years := some "N/A"
    responsibilities := some "" }

/-- A store returning a single hit whose metadata lacks `doc_type`. -/
def c9Store : QueryFn := fun _ _ =>
  Except.ok [Hit.mk ("X1") [("name", "아무개")] 1]

/-- The candidate that `recommend_talent_from_db` returns on `c9Store`
with `target_doc_type='unknown'`. -/
def c9Candidate : Candidate :=
  { id := "X1"
    doc_type := "unknown"
    distance := 1
    reasoning := []
    name_or_title := some "N/A"
    department := "N/A"
    profile_or_description := some "N/A"
    skills_info := some "N/A"
    position := none
    projects := none
    languages := none
    location := none
    employment_type := none
    experience_years := none
    responsibilities := none }


/-- An employee candidate carrying the spec's language example. -/
def c4Candidate : Candidate :=
  { id := "E1"
    doc_type := "employee"
    distance := 0
    reasoning := []
    name_or_title := some "Kim"
    department := "R&D"
    profile_or_description := some ""
    skills_info := some "Python"
    position := some "N/A"
    projects := some ""
    languages := some "Korean(native), English(business)"
    location := none
    employment_type := none
    experience_years := none
    responsibilities := none }

/-- An unknown-tagged candidate (as built from a hit with no
`doc_type` metadata). -/
def c10Candidate : Candidate :=
  { id := "X2"
    doc_type := "unknown"
    distance := 2
    reasoning := []
    name_or_title := some "N/A"
    department := "N/A"
    profile_or_description := some "N/A"
    skills_info := some "N/A"
    position := none
    projects := none
    languages := none
    location := none
    employment_type := none
    experience_years := none
    responsibilities := none }

/-- A single employee-tagged hit. -/
def c9wHits : List Hit := [Hit.mk ("E1") [("doc_type", "employee")] 0]

/-- A store that always answers with `c9wHits`. -/
def c9wStore : QueryFn := fun _ _ => Except.ok c9wHits

/-- A store that always answers with an empty hit list. -/
def c2wStore : QueryFn := fun _ _ => Except.ok []

/-- A one-collection client holding a single entry. -/
def c6Client : Client := [("c", [Entry.mk ("X") ("doc") []])]

/-- An employee record carrying only an ID. -/
def c6Emp : EmployeeRec :=
  { id := some "E1"
    name := none
    position := none
    department := none
    profile_summary := none
    skills := none
    projects := none
    languages := none
    education := none }

/-- Five valid sync items, for the batch-boundary scenario. -/
def c7Items : List SyncItem :=
  [("J1", "d1", []), ("J2", "d2", []), ("J3", "d3", []), ("J4", "d4", []), ("J5", "d5", [])]

/-- An employee record with every key absent. -/
def emptyEmployee : EmployeeRec :=
  { id := none
    name := none
    position := none
    department := none
    profile_summary := none
    skills := none
    projects := none
    languages := none
    education := none }

instance : IsTotal Candidate candLeP :=
  ⟨by
    intro a b
    unfold candLeP
    rcases Nat.lt_trichotomy a.reasoning.length b.reasoning.length with h | h | h
    · exact Or.inr (Or.inl h)
    · rcases le_total a.distance b.distance with hd | hd
      · exact Or.inl (Or.inr ⟨h, hd⟩)
      · exact Or.inr (Or.inr ⟨h.symm, hd⟩)
    · exact Or.inl (Or.inl h)⟩

instance : IsTrans Candidate candLeP :=
  ⟨by
    intro a b c hab hbc
    unfold candLeP at *
    rcases hab with h1 | ⟨h1, d1⟩ <;> rcases hbc with h2 | ⟨h2, d2⟩
    · exact Or.inl (h2.trans h1)
    · exact Or.inl (h2 ▸ h1)
    · exact Or.inl (h1 ▸ h2)
    · exact Or.inr ⟨h1.trans h2, d1.trans d2⟩⟩

/-- The success flag of the language loop is the conjunction of the
per-language substring tests. -/
theorem checkLangs_fst (s : String) (l : List String) :
    (checkLangs s l).fst = l.all (fun r => subOf (lowerStr r) s) := by
  induction l with
  | nil => rfl
  | cons r rs ih =>
    cases hsub : subOf (lowerStr r) s <;> simp [checkLangs, hsub, ih]

/-- When every required language is met, the display list accumulated
by the loop is the whole required list. -/
theorem checkLangs_snd_of_all (s : String) (l : List String)
    (h : l.all (fun r => subOf (lowerStr r) s) = true) : (checkLangs s l).snd = l := by
  induction l with
  | nil => rfl
  | cons r rs ih =>
    simp only [List.all_cons, Bool.and_eq_true] at h
    simp [checkLangs, h.1, ih h.2]

/-- C3 — For every candidate pool and every k, the final list returned
by the rerank stage has length at most k, and every adjacent pair
(a, b) satisfies len(a.reasoning) > len(b.reasoning), or equal
reasoning counts with a.distance <= b.distance. -/
theorem final_list_truncated_and_sorted (cs : List Candidate) (k : Nat) :
    (finalizeCandidates cs k).length ≤ k ∧ List.Chain' candLeP (finalizeCandidates cs k) := by
  constructor
  · have hlen : (finalizeCandidates cs k).length = min k (sortCandidates cs).length := by
      simp [finalizeCandidates, List.length_take]
    rw [hlen]
    exact min_le_left _ _
  · have hs : List.Pairwise candLeP (sortCandidates cs) :=
      List.sorted_insertionSort candLeP cs
    exact (List.Pairwise.sublist (List.take_sublist k (sortCandidates cs)) hs).chain'

/-- C4 — With a non-empty required-language list, the language filter
stage behaves exactly as specified: an employee candidate survives iff
every required language (lower-cased) is a substring of its
lower-cased flattened language field, each surviving employee gains a
reason listing the requested languages verbatim, and every non-employee
candidate passes through unchanged. -/
theorem lang_filter_matches_spec (l : List String) (cs : List Candidate) (h : l ≠ []) :
    applyLangFilter (some l) cs = langFilterSpec l cs := by
  have hne : l.isEmpty = false := by
    cases l with
    | nil => exact absurd rfl h
    | cons a as => rfl
  have hfun : ∀ c : Candidate,
      (if c.doc_type == "employee" then
        (if (checkLangs (lowerStr (c.languages.getD (""))) l).fst then
          [{ c with reasoning := c.reasoning ++
              ["요구 언어 충족: " ++ joinSep (", ") (checkLangs (lowerStr (c.languages.getD (""))) l).snd] }]
         else [])
       else [c])
      = (if c.doc_type == "employee" then
          (if l.all (fun r => subOf (lowerStr r) (lowerStr (c.languages.getD ("")))) then
            [{ c with reasoning := c.reasoning ++ ["요구 언어 충족: " ++ joinSep (", ") l] }]
           else [])
         else [c]) := by
    intro c
    cases hdt : (c.doc_type == "employee")
    · simp [hdt]
    · cases hall : l.all (fun r => subOf (lowerStr r) (lowerStr (c.languages.getD (""))))
      · simp [hdt, checkLangs_fst, hall]
      · simp [hdt, checkLangs_fst, hall, checkLangs_snd_of_all _ _ hall]
  simp only [applyLangFilter, langFilterSpec, hne, Bool.false_eq_true, if_false]
  exact congrArg (List.flatMap cs) (funext hfun)

/-- C10 — A hit whose metadata lacks `doc_type` is tagged `unknown`,
and the language filter passes any non-employee-tagged candidate
through untouched. -/
theorem missing_doc_type_is_unknown_and_passes_lang_filter (m : Metadata) (l : List String)
    (c : Candidate) (cs : List Candidate) (h1 : lookupMeta m ("doc_type") = none)
    (h2 : l ≠ []) (h3 : c.doc_type ≠ "employee") :
    docTypeOfMeta m = "unknown" ∧
      applyLangFilter (some l) (c :: cs) = c :: applyLangFilter (some l) cs := by
  have hne : l.isEmpty = false := by
    cases l with
    | nil => exact absurd rfl h2
    | cons a as => rfl
  have hdt : (c.doc_type == "employee") = false := by
    simp [h3]
  constructor
  · simp [docTypeOfMeta, h1]
  · simp [applyLangFilter, hne, hdt, h3]

/-- C1 — With `target_doc_type='employee'` and a store that raises on
the filtered query, the fallback unfiltered query is taken but the
post-hoc variant check never fires (the `where_filter` dictionary is
still non-empty), so a job-tagged item is returned: the concrete
evaluation at the failing input. -/
theorem fallback_returns_wrong_variant :
    (recommend_talent_from_db c1Store ("xy") 3 none none (some "employee")).fst
      = Except.ok [c1Candidate] ∧
    c1Candidate.doc_type = "job" ∧
    (recommend_talent_from_db c1Store ("xy") 3 none none (some "employee")).snd
      = [(some "employee", 15), (none, 15)] :=
  ⟨rfl, rfl, rfl⟩

/-- C2 counterexample — for k = 3 the code requests 15 candidates
while the claimed `max(k * 5, 20)` is 20. -/
theorem query_count_disagrees_with_spec_max :
    (recommend_talent_from_db c2wStore ("d") 3 none none none).snd
      = [(none, initial_query_count 3)] ∧
    initial_query_count 3 = 15 ∧ spec_query_count 3 = 20 ∧
    initial_query_count 3 ≠ spec_query_count 3 :=
  ⟨rfl, rfl, rfl, by decide⟩

/-- C2 amended — whenever the store accepts the issued query, the
retrieval step issues exactly one similarity query, and it requests
`k * 5` candidates when `k * 5 > 10`, else 20. -/
theorem single_query_with_code_count (q : QueryFn) (desc : String) (k : Nat)
    (df : Option String) (req : Option (List String)) (tgt : Option String) (hits : List Hit)
    (h : q (whereOf tgt) (initial_query_count k) = Except.ok hits) :
    (recommend_talent_from_db q desc k df req tgt).snd
      = [(whereOf tgt, initial_query_count k)] ∧
    initial_query_count k = (if 10 < k * 5 then k * 5 else 20) := by
  constructor
  · simp only [recommend_talent_from_db]
    rw [h]
  · rfl

/-- Witness for the amended C2 at k = 3 on a store that accepts the
query. -/
theorem single_query_with_code_count_witness :
    c2wStore (whereOf none) (initial_query_count 3) = Except.ok [] ∧
    ((recommend_talent_from_db c2wStore ("d") 3 none none none).snd
        = [(whereOf none, initial_query_count 3)] ∧
      initial_query_count 3 = (if 10 < 3 * 5 then 3 * 5 else 20)) :=
  ⟨rfl, single_query_with_code_count c2wStore ("d") 3 none none none [] rfl⟩

/-- C9 counterexample — with `target_doc_type='unknown'` (non-empty,
neither 'employee' nor 'job') and a store item whose metadata lacks
`doc_type`, the function returns that item, not the empty list. -/
theorem unknown_target_can_return_items :
    (recommend_talent_from_db c9Store ("x") 3 none none (some "unknown")).fst
      = Except.ok [c9Candidate] ∧
    Except.ok [c9Candidate] ≠ (Except.ok [] : Except String (List Candidate)) := by
  refine ⟨rfl, ?_⟩
  intro heq
  simp at heq

/-- The department filter of an empty pool is empty. -/
theorem applyDeptFilter_nil (df : Option String) : applyDeptFilter df [] = [] := by
  cases df <;> simp [applyDeptFilter]

/-- The keyword stage of an empty pool is empty. -/
theorem applyKeywordStage_nil (desc : String) : applyKeywordStage desc [] = [] := by
  simp [applyKeywordStage]

/-- The language filter of an empty pool is empty. -/
theorem applyLangFilter_nil (req : Option (List String)) : applyLangFilter req [] = [] := by
  cases req <;> simp [applyLangFilter]

/-- Sorting and truncating an empty pool gives an empty list. -/
theorem finalizeCandidates_nil (k : Nat) : finalizeCandidates [] k = [] := by
  simp [finalizeCandidates, sortCandidates]

/-- C9 amended — for a truthy target other than 'employee' and 'job',
no store-side predicate is applied (the single issued query carries no
where-filter) and, provided every returned item carries an 'employee'
or 'job' tag (as every item written by the synchronizer does), the
post-hoc check removes every candidate and the function returns the
empty list. -/
theorem other_target_returns_empty (q : QueryFn) (t desc : String) (k : Nat)
    (df : Option String) (req : Option (List String)) (hits : List Hit)
    (h1 : t ≠ "") (h2 : t ≠ "employee") (h3 : t ≠ "job")
    (hq : q none (initial_query_count k) = Except.ok hits)
    (hm : ∀ x ∈ hits, docTypeOfMeta x.metadata = "employee" ∨ docTypeOfMeta x.metadata = "job") :
    (recommend_talent_from_db q desc k df req (some t)).fst = Except.ok [] ∧
    (recommend_talent_from_db q desc k df req (some t)).snd
      = [(none, initial_query_count k)] := by
  have b1 : (t == "") = false := by simp [h1]
  have b2 : (t == "employee") = false := by simp [h2]
  have b3 : (t == "job") = false := by simp [h3]
  have hw : whereOf (some t) = none := by simp [whereOf, b2, b3]
  have hcand : candidatesOf (some t) none hits = [] := by
    simp only [candidatesOf, List.filterMap_eq_nil_iff]
    intro x hx
    have hskip : skipHit (some t) none (docTypeOfMeta x.metadata) = true := by
      rcases hm x hx with hdt | hdt <;> simp [skipHit, hdt, b1, b2, b3]
    simp [hskip]
  have hproc : processHits none (some t) desc k df req hits = [] := by
    cases hemp : hits.isEmpty
    · simp [processHits, hemp, hcand, applyDeptFilter_nil, applyKeywordStage_nil,
        applyLangFilter_nil, finalizeCandidates_nil]
    · simp [processHits, hemp]
  simp only [recommend_talent_from_db, hw]
  rw [hq]
  exact ⟨congrArg Except.ok hproc, rfl⟩

/-- Witness for the amended C9 with target 'misc' on a store returning
one employee-tagged hit. -/
theorem other_target_returns_empty_witness :
    ("misc" ≠ "") ∧ ("misc" ≠ "employee") ∧ ("misc" ≠ "job") ∧
    c9wStore none (initial_query_count 3) = Except.ok c9wHits ∧
    (∀ x ∈ c9wHits, docTypeOfMeta x.metadata = "employee" ∨ docTypeOfMeta x.metadata = "job") ∧
    ((recommend_talent_from_db c9wStore ("d") 3 none none (some "misc")).fst = Except.ok [] ∧
      (recommend_talent_from_db c9wStore ("d") 3 none none (some "misc")).snd
        = [(none, initial_query_count 3)]) :=
  ⟨by decide, by decide, by decide, rfl, by decide,
    other_target_returns_empty c9wStore ("misc") ("d") 3 none none c9wHits
      (by decide) (by decide) (by decide) rfl (by decide)⟩

/-- C5 — With both record lists empty and no pre-existing collection
of that name, synchronization returns a zero-count collection without
signalling an error, the collection is queryable under its name, and
every recommendation query against the empty index returns the empty
list. -/
theorem empty_sync_gives_queryable_empty_index (client : Client) (name : String) (B : Nat)
    (fails : Nat → Bool) (h : getColl client name = none) :
    setup_chromadb_collection client name [] [] B fails = (setColl client name [], some [], []) ∧
    getColl (setColl client name []) name = some [] ∧
    ∀ (distOf : String → Rat) (desc : String) (k : Nat) (df : Option String)
      (req : Option (List String)) (tgt : Option String),
      (recommend_talent_from_db (collQuery [] distOf) desc k df req tgt).fst = Except.ok [] := by
  have hf : client.find? (fun p => p.fst == name) = none := by
    simp only [getColl] at h
    exact Option.map_eq_none'.mp h
  refine ⟨?_, ?_, ?_⟩
  · simp [setup_chromadb_collection, h]
  · simp [getColl, setColl, hf, List.find?_append]
  · intro distOf desc k df req tgt
    simp [recommend_talent_from_db, collQuery, processHits]

/-- Witness for C5 on a fresh (empty) client. -/
theorem empty_sync_gives_queryable_empty_index_witness :
    getColl [] ("c") = none ∧
    (setup_chromadb_collection [] ("c") [] [] 1000 (fun _ => false)
        = (setColl [] ("c") [], some [], []) ∧
      getColl (setColl [] ("c") []) ("c") = some [] ∧
      ∀ (distOf : String → Rat) (desc : String) (k : Nat) (df : Option String)
        (req : Option (List String)) (tgt : Option String),
        (recommend_talent_from_db (collQuery [] distOf) desc k df req tgt).fst = Except.ok []) :=
  ⟨rfl, empty_sync_gives_queryable_empty_index [] ("c") 1000 (fun _ => false) rfl⟩

/-- C6 — When the stored item count equals the number of distinct
supplied record IDs and is positive, synchronization returns the
existing collection as-is: the client state, the collection contents
(hence its count and ID set) are unchanged, and no batch is attempted. -/
theorem matching_count_skips_reembedding (client : Client) (name : String)
    (emps : List EmployeeRec) (jobs : List JobRec) (B : Nat) (fails : Nat → Bool)
    (coll : List Entry) (h1 : getColl client name = some coll)
    (h2 : coll.length = idCardOf emps jobs) (h3 : 0 < coll.length) :
    setup_chromadb_collection client name emps jobs B fails = (client, some coll, []) := by
  have hAD : (emps.map TaggedRec.emp ++ jobs.map TaggedRec.job).isEmpty = false := by
    cases emps with
    | nil =>
      cases jobs with
      | nil =>
        exfalso
        rw [show idCardOf ([] : List EmployeeRec) ([] : List JobRec) = 0 by simp [idCardOf]] at h2
        omega
      | cons j js => simp
    | cons e es => simp
  have hne : ¬(coll.length ≠ idCardOf emps jobs) := by simp [h2]
  simp only [setup_chromadb_collection, hAD, Bool.false_eq_true, if_false, h1]
  rw [if_neg hne, if_pos h3]

/-- Witness for C6: one stored entry, one record ID. -/
theorem matching_count_skips_reembedding_witness :
    getColl c6Client ("c") = some [Entry.mk ("X") ("doc") []] ∧
    ([Entry.mk ("X") ("doc") []].length = idCardOf [c6Emp] []) ∧
    (0 < [Entry.mk ("X") ("doc") []].length) ∧
    setup_chromadb_collection c6Client ("c") [c6Emp] [] 1000 (fun _ => false)
      = (c6Client, some [Entry.mk ("X") ("doc") []], []) :=
  ⟨rfl, by decide, by decide,
    matching_count_skips_reembedding c6Client ("c") [c6Emp] [] 1000 (fun _ => false)
      [Entry.mk ("X") ("doc") []] rfl (by decide) (by decide)⟩

/-- Replacing the entry with a matching ID never changes the stored ID
list. -/
theorem map_id_upsert_replace (es : List Entry) (e : Entry) :
    (es.map (fun x => if x.id == e.id then e else x)).map Entry.id = es.map Entry.id := by
  rw [List.map_map]
  apply List.map_congr_left
  intro x _
  by_cases h : (x.id == e.id) = true
  · simp only [Function.comp, h, if_true]
    exact (eq_of_beq h).symm
  · simp [Function.comp, h]

/-- An ID present before a single-item upsert is present afterwards. -/
theorem mem_map_id_upsertEntry (es : List Entry) (e : Entry) (a : String)
    (ha : a ∈ es.map Entry.id) : a ∈ (upsertEntry es e).map Entry.id := by
  unfold upsertEntry
  by_cases hc : (es.any (fun x => x.id == e.id)) = true
  · simp only [hc, if_true]
    rw [map_id_upsert_replace]
    exact ha
  · simp only [hc, if_false]
    simp [List.map_append]
    exact Or.inl (by simpa using ha)

/-- A single-item upsert makes its own ID present. -/
theorem self_mem_map_id_upsertEntry (es : List Entry) (e : Entry) :
    e.id ∈ (upsertEntry es e).map Entry.id := by
  unfold upsertEntry
  by_cases hc : (es.any (fun x => x.id == e.id)) = true
  · simp only [hc, if_true]
    rw [map_id_upsert_replace]
    rcases List.any_eq_true.mp hc with ⟨x, hx, hbeq⟩
    rw [← eq_of_beq hbeq]
    exact List.mem_map_of_mem Entry.id hx
  · simp [hc, List.map_append]

/-- An ID present before a batched upsert is present afterwards. -/
theorem mem_map_id_upsertBatch (es : List Entry) (b : List Entry) (a : String)
    (ha : a ∈ es.map Entry.id) : a ∈ (upsertBatch es b).map Entry.id := by
  induction b generalizing es with
  | nil => exact ha
  | cons x xs ih =>
    rw [show upsertBatch es (x :: xs) = upsertBatch (upsertEntry es x) xs from rfl]
    exact ih _ (mem_map_id_upsertEntry _ _ _ ha)

/-- Every member of an upserted batch has its ID present afterwards. -/
theorem mem_map_id_upsertBatch_self (es : List Entry) (b : List Entry) (e : Entry)
    (he : e ∈ b) : e.id ∈ (upsertBatch es b).map Entry.id := by
  induction b generalizing es with
  | nil => cases he
  | cons x xs ih =>
    rw [show upsertBatch es (x :: xs) = upsertBatch (upsertEntry es x) xs from rfl]
    rcases List.mem_cons.mp he with rfl | hmem
    · exact mem_map_id_upsertBatch _ xs _ (self_mem_map_id_upsertEntry es e)
    · exact ih _ hmem

/-- The batch loop never removes a stored ID. -/
theorem runLoop_fst_preserves (items : List SyncItem) (B : Nat) (fails : Nat → Bool)
    (L : List Nat) (acc : List Entry × List String) (a : String)
    (ha : a ∈ acc.1.map Entry.id) : a ∈ (runLoop items B fails L acc).1.map Entry.id := by
  induction L generalizing acc with
  | nil => exact ha
  | cons j rest ih =>
    simp only [runLoop]
    by_cases hfj : fails j = true
    · simp only [hfj, if_true]
      exact ih _ ha
    · simp only [Bool.not_eq_true] at hfj
      simp only [hfj, Bool.false_eq_true, if_false]
      by_cases hbe : (batchSlice items B j).isEmpty = true
      · simp only [hbe, if_true]
        exact ih _ ha
      · simp only [hbe, Bool.not_eq_true] at *
        simp only [hbe, Bool.false_eq_true, if_false]
        exact ih _ (mem_map_id_upsertBatch _ _ _ ha)

/-- The batch loop never removes a logged diagnostic. -/
theorem runLoop_snd_preserves (items : List SyncItem) (B : Nat) (fails : Nat → Bool)
    (L : List Nat) (acc : List Entry × List String) (s : String)
    (hs : s ∈ acc.2) : s ∈ (runLoop items B fails L acc).2 := by
  induction L generalizing acc with
  | nil => exact hs
  | cons j rest ih =>
    simp only [runLoop]
    by_cases hfj : fails j = true
    · simp only [hfj, if_true]
      exact ih _ (List.mem_append_left _ hs)
    · simp only [Bool.not_eq_true] at hfj
      simp only [hfj, Bool.false_eq_true, if_false]
      by_cases hbe : (batchSlice items B j).isEmpty = true
      · simp only [hbe, if_true]
        exact ih _ hs
      · simp only [hbe, Bool.not_eq_true] at *
        simp only [hbe, Bool.false_eq_true, if_false]
        exact ih _ hs

/-- Every item of a listed non-failing batch ends up stored. -/
theorem runLoop_adds (items : List SyncItem) (B : Nat) (fails : Nat → Bool)
    (L : List Nat) (acc : List Entry × List String) (i : Nat) (x : SyncItem)
    (hiL : i ∈ L) (hfi : fails i = false) (hx : x ∈ batchSlice items B i) :
    x.1 ∈ (runLoop items B fails L acc).1.map Entry.id := by
  induction L generalizing acc with
  | nil => cases hiL
  | cons j rest ih =>
    rcases List.mem_cons.mp hiL with rfl | hmem
    · simp only [runLoop, hfi, Bool.false_eq_true, if_false]
      have hne : (batchSlice items B i).isEmpty = false := by
        cases hb : batchSlice items B i with
        | nil => rw [hb] at hx; cases hx
        | cons y ys => rfl
      simp only [hne, Bool.false_eq_true, if_false]
      exact runLoop_fst_preserves _ _ _ _ _ _
        (mem_map_id_upsertBatch_self _ _ _ (List.mem_map_of_mem mkEntry hx))
    · simp only [runLoop]
      by_cases hfj : fails j = true
      · simp only [hfj, if_true]
        exact ih _ hmem
      · simp only [Bool.not_eq_true] at hfj
        simp only [hfj, Bool.false_eq_true, if_false]
        by_cases hbe : (batchSlice items B j).isEmpty = true
        · simp only [hbe, if_true]
          exact ih _ hmem
        · simp only [hbe, Bool.not_eq_true] at *
          simp only [hbe, Bool.false_eq_true, if_false]
          exact ih _ hmem

/-- Every listed failing batch leaves its first-ID diagnostic in the
log. -/
theorem runLoop_logs (items : List SyncItem) (B : Nat) (fails : Nat → Bool)
    (L : List Nat) (acc : List Entry × List String) (i : Nat)
    (hiL : i ∈ L) (hfi : fails i = true) :
    firstIdOfBatch (batchSlice items B i) ∈ (runLoop items B fails L acc).2 := by
  induction L generalizing acc with
  | nil => cases hiL
  | cons j rest ih =>
    rcases List.mem_cons.mp hiL with rfl | hmem
    · simp only [runLoop, hfi, if_true]
      exact runLoop_snd_preserves _ _ _ _ _ _
        (List.mem_append_right _ (List.mem_singleton.mpr rfl))
    · simp only [runLoop]
      by_cases hfj : fails j = true
      · simp only [hfj, if_true]
        exact ih _ hmem
      · simp only [Bool.not_eq_true] at hfj
        simp only [hfj, Bool.false_eq_true, if_false]
        by_cases hbe : (batchSlice items B j).isEmpty = true
        · simp only [hbe, if_true]
          exact ih _ hmem
        · simp only [hbe, Bool.not_eq_true] at *
          simp only [hbe, Bool.false_eq_true, if_false]
          exact ih _ hmem

/-- A listed batch index starts strictly inside the item list. -/
theorem mul_lt_of_lt_numBatches (n B i : Nat) (hB : 0 < B) (hn : 0 < n)
    (hi : i < numBatches n B) : i * B < n := by
  have h1 : (i + 1) * B ≤ numBatches n B * B :=
    Nat.mul_le_mul_right B (Nat.succ_le_of_lt hi)
  have h2 : numBatches n B * B ≤ n + B - 1 := by
    unfold numBatches
    exact Nat.div_mul_le_self _ _
  have h3 : (i + 1) * B = i * B + B := by ring
  rw [h3] at h1
  generalize i * B = p at *
  generalize numBatches n B * B = q at *
  omega

/-- The slice of a listed batch has the configured batch size, capped
by the remaining item count. -/
theorem batchSlice_length (items : List SyncItem) (B i : Nat) (hB : 0 < B)
    (hn : items ≠ []) (hi : i < numBatches items.length B) :
    (batchSlice items B i).length = min B (items.length - i * B) := by
  have hn0 : 0 < items.length := List.length_pos.mpr hn
  have hlt : i * B < items.length := mul_lt_of_lt_numBatches _ B i hB hn0 hi
  have h3 : (i + 1) * B = i * B + B := by ring
  simp only [batchSlice, List.length_take, List.length_drop]
  rw [h3]
  generalize i * B = p at *
  omega

/-- Ceiling characterisation of the batch count. -/
theorem numBatches_ceil (n B : Nat) (hB : 0 < B) (hn : 0 < n) :
    n ≤ numBatches n B * B ∧ (numBatches n B - 1) * B < n := by
  have hd := Nat.div_add_mod (n + B - 1) B
  have hr : (n + B - 1) % B < B := Nat.mod_lt _ hB
  have hcomm : B * ((n + B - 1) / B) = ((n + B - 1) / B) * B := Nat.mul_comm _ _
  have hsub : ((n + B - 1) / B - 1) * B = ((n + B - 1) / B) * B - B := by
    rw [Nat.sub_mul, one_mul]
  have hle : ((n + B - 1) / B) * B ≤ n + B - 1 := Nat.div_mul_le_self _ _
  unfold numBatches
  rw [hcomm] at hd
  generalize ((n + B - 1) / B - 1) * B = s at *
  generalize ((n + B - 1) / B) * B = q at *
  generalize (n + B - 1) % B = r at *
  omega

/-- C7 — The rebuild loop attempts exactly `ceil(n / B)` batches (the
two arithmetic conjuncts pin the loop bound `numBatches n B` as the
ceiling), each listed batch slice has the configured size capped by
the remainder, every item of a non-failing batch is present in the
index afterwards, and every failing batch is logged with its first ID
while the remaining batches still run. -/
theorem batch_rebuild_resilient (coll : List Entry) (items : List SyncItem) (B : Nat)
    (fails : Nat → Bool) (hB : 0 < B) (hn : items ≠ []) :
    (∀ i, i < numBatches items.length B →
      (batchSlice items B i).length = min B (items.length - i * B)) ∧
    items.length ≤ numBatches items.length B * B ∧
    (numBatches items.length B - 1) * B < items.length ∧
    (∀ i, i < numBatches items.length B → fails i = false →
      ∀ x ∈ batchSlice items B i, x.1 ∈ (runBatches coll items B fails).1.map Entry.id) ∧
    (∀ i, i < numBatches items.length B → fails i = true →
      firstIdOfBatch (batchSlice items B i) ∈ (runBatches coll items B fails).2) := by
  have hn0 : 0 < items.length := List.length_pos.mpr hn
  refine ⟨?_, (numBatches_ceil _ _ hB hn0).1, (numBatches_ceil _ _ hB hn0).2, ?_, ?_⟩
  · intro i hi
    exact batchSlice_length items B i hB hn hi
  · intro i hi hfi x hx
    exact runLoop_adds items B fails _ _ i x (List.mem_range.mpr hi) hfi hx
  · intro i hi hfi
    exact runLoop_logs items B fails _ _ i (List.mem_range.mpr hi) hfi

/-- Witness for C7: five valid items, batch size 2, batch 1 failing —
three batches of sizes 2, 2, 1; batches 0 and 2 land in the index,
batch 1 is logged. -/
theorem batch_rebuild_resilient_witness :
    (0 < 2) ∧ (c7Items ≠ []) ∧
    ((∀ i, i < numBatches c7Items.length 2 →
        (batchSlice c7Items 2 i).length = min 2 (c7Items.length - i * 2)) ∧
      c7Items.length ≤ numBatches c7Items.length 2 * 2 ∧
      (numBatches c7Items.length 2 - 1) * 2 < c7Items.length ∧
      (∀ i, i < numBatches c7Items.length 2 → (fun i => i == 1) i = false →
        ∀ x ∈ batchSlice c7Items 2 i,
          x.1 ∈ (runBatches [] c7Items 2 (fun i => i == 1)).1.map Entry.id) ∧
      (∀ i, i < numBatches c7Items.length 2 → (fun i => i == 1) i = true →
        firstIdOfBatch (batchSlice c7Items 2 i)
          ∈ (runBatches [] c7Items 2 (fun i => i == 1)).2)) :=
  ⟨by decide, by decide,
    batch_rebuild_resilient [] c7Items 2 (fun i => i == 1) (by decide) (by decide)⟩

/-- C8 counterexample — on a record with no education data the code
renders the graduation year as the string N/A, not as the empty
string, so the built text differs from the all-empty-default rendering
the spec describes. -/
theorem missing_year_renders_na :
    prepare_text_for_employee_embedding emptyEmployee
        ≠ buildEmployeeText (fillEmployeeSpec emptyEmployee) ∧
    (fillEmployeeSpec emptyEmployee).eduYear = "" ∧
    (fillEmployeeCode emptyEmployee).eduYear = "N/A" := by
  refine ⟨by decide, rfl, rfl⟩

/-- C8 amended — the embedding text factors through total string
fields for every record of either variant (so building never fails),
with every missing field rendered as the empty string except the
employee graduation year, which renders as N/A. -/
theorem missing_fields_render_empty_except_year :
    (∀ e, prepare_text_for_employee_embedding e = buildEmployeeText (fillEmployeeCode e)) ∧
    (∀ j, prepare_text_for_job_embedding j = buildJobText (fillJobSpec j)) := by
  constructor <;> intro r <;> rfl

/-- Witness for C4 on the spec's example: required language 'english',
candidate languages 'Korean(native), English(business)'. -/
theorem lang_filter_matches_spec_witness :
    ((["english"] : List String) ≠ []) ∧
    applyLangFilter (some ["english"]) [c4Candidate] = langFilterSpec ["english"] [c4Candidate] :=
  ⟨by decide, lang_filter_matches_spec ["english"] [c4Candidate] (by decide)⟩

/-- Witness for C10 on a metadata map without `doc_type` and an
unknown-tagged candidate. -/
theorem missing_doc_type_witness :
    lookupMeta [("name", "NoType")] ("doc_type") = none ∧
    ((["korean"] : List String) ≠ []) ∧
    c10Candidate.doc_type ≠ "employee" ∧
    (docTypeOfMeta [("name", "NoType")] = "unknown" ∧
      applyLangFilter (some ["korean"]) (c10Candidate :: [])
        = c10Candidate :: applyLangFilter (some ["korean"]) []) :=
  ⟨rfl, by decide, by decide,
    missing_doc_type_is_unknown_and_passes_lang_filter [("name", "NoType")] ["korean"]
      c10Candidate [] rfl (by decide) (by decide)⟩
